import Mathlib

/-!
# Verification of the Cognidoc ingestion and retrieval pipeline

Shallow embedding of `src/backend/rag_engine.py` (class `RAGEngine`), the
in-memory ("demo mode") document question-answering engine.  Python strings
become `String`, Python sets of words become `Finset String`, the float
relevance ratio is modelled exactly by `ℚ`, dictionaries become association
lists, and fallible code returns `Except`.  The external language-model call
is modelled as a queue of outcomes consumed one per call, so that the number
of calls made is observable.
-/

namespace Cognidoc

/-- A stored chunk, i.e. a langchain `Document` after the metadata loop of
`add_document` (rag_engine.py lines 136-142): `page_content` plus the
metadata keys `source`, `chunk_id`, `page_number`, `total_chunks`. -/
structure Chunk where
  text : String
  source : String
  chunkId : Nat
  pageNumber : Nat
  totalChunks : Nat
deriving DecidableEq

/-- One entry of a `sources` list in a query response
(rag_engine.py lines 220-226). -/
structure QuerySource where
  document : String
  pageNumber : Nat
  chunkId : Nat
  relevance : String
deriving DecidableEq

/-- The dictionary returned by `RAGEngine.query` / `_demo_query` /
`_get_demo_response`.  Keys that a given Python code path omits are `none`
(`context_used`, `suggestion`) or `false` (`error`). -/
structure QueryResult where
  answer : String
  sources : List QuerySource
  contextUsed : Option Nat
  suggestion : Option String
  error : Bool
deriving DecidableEq

/-- A page produced by the external loader (`PyPDFLoader`): its text and its
optional `page` metadata entry. -/
structure Page where
  text : String
  page : Option Nat
deriving DecidableEq

/-- A piece produced by the external `RecursiveCharacterTextSplitter`:
text plus the `page` metadata it inherited from its source page. -/
structure SplitPiece where
  text : String
  page : Option Nat
deriving DecidableEq

/-- The per-document metadata dictionary stored in `self.documents[filename]`
(rag_engine.py lines 157-161). -/
structure DocRecord where
  chunks : Nat
  pages : Nat
  status : String
deriving DecidableEq

/-- The mutable state of a `RAGEngine` instance operating in demo mode:
configuration flags, the in-memory chunk sequence `self.demo_documents`, and
the metadata map `self.documents` (a Python dict, embedded as an association
list in insertion order). -/
structure EngineState where
  demoMode : Bool
  hasGeminiKey : Bool
  hasPineconeKey : Bool
  demoDocuments : List Chunk
  documents : List (String × DocRecord)
deriving DecidableEq

/-- Python `str.lower()` (ASCII range; the repository's vocabulary is
ASCII). -/
def lowerStr (s : String) : String :=
  String.mk (s.toList.map Char.toLower)

/-- Accumulator pass of `str.split()`: `acc` holds the current word's
characters in reverse. -/
def splitWordsAux : List Char → List Char → List String
  | [], acc => if acc.isEmpty then [] else [String.mk acc.reverse]
  | c :: cs, acc =>
      if c.isWhitespace then
        if acc.isEmpty then splitWordsAux cs []
        else String.mk acc.reverse :: splitWordsAux cs []
      else splitWordsAux cs (c :: acc)

/-- Python `str.split()` with no argument: split on runs of whitespace,
discarding empty pieces. -/
def pyWords (s : String) : List String :=
  splitWordsAux s.toList []

/-- `set(s.lower().split())` — the set of lower-cased words of a string
(rag_engine.py lines 189-190 and 193). -/
def wordSet (s : String) : Finset String :=
  (pyWords (lowerStr s)).toFinset

/-- `len(query_words.intersection(content_words)) / len(query_words)`
(rag_engine.py line 195), with Python float division modelled exactly
on `ℚ`.  When `qw` is empty the Python expression raises
`ZeroDivisionError`; callers guard that case, and here (as for `ℚ`)
the value is then 0. -/
def relevanceScore (qw : Finset String) (c : Chunk) : ℚ :=
  ((qw ∩ wordSet c.text).card : ℚ) / (qw.card : ℚ)

/-- The scored chunk list built by the loop of rag_engine.py lines 192-197,
before the threshold test: every chunk paired with its relevance. -/
def scoredChunks (kb : List Chunk) (q : String) : List (Chunk × ℚ) :=
  kb.map (fun c => (c, relevanceScore (wordSet q) c))

/-- `relevant_chunks` as built by rag_engine.py lines 192-197: the scored
chunks whose relevance exceeds 0.1. -/
def keptChunks (kb : List Chunk) (q : String) : List (Chunk × ℚ) :=
  (scoredChunks kb q).filter (fun p => (1 : ℚ)/10 < p.2)

/-- Insert a scored chunk into a descending-sorted list, after every element
of strictly greater relevance and before every element of equal or smaller
relevance.  Folding this over the list (`sortDesc`) is the stable descending
sort performed by Python's `list.sort(key=lambda x: x[1], reverse=True)`
(rag_engine.py line 200). -/
def insertDesc (p : Chunk × ℚ) : List (Chunk × ℚ) → List (Chunk × ℚ)
  | [] => [p]
  | b :: rest => if p.2 < b.2 then b :: insertDesc p rest else p :: b :: rest

/-- Stable descending sort by relevance, the embedding of
`relevant_chunks.sort(key=lambda x: x[1], reverse=True)`. -/
def sortDesc : List (Chunk × ℚ) → List (Chunk × ℚ)
  | [] => []
  | p :: rest => insertDesc p (sortDesc rest)

/-- `context_chunks = [chunk[0] for chunk in relevant_chunks[:3]]`
(rag_engine.py line 207): the context set selected by the in-memory query. -/
def demoContext (kb : List Chunk) (q : String) : List Chunk :=
  ((sortDesc (keptChunks kb q)).take 3).map Prod.fst

/-- The hard-coded demo response for questions mentioning "tesla"
(rag_engine.py lines 290-295). -/
def teslaResponse : QueryResult :=
  { answer := "Based on Tesla\x27s 2023 annual report, Tesla achieved record financial performance with total revenues of $96.77 billion, representing a 19% increase year-over-year. The automotive segment contributed $82.42 billion, while energy generation and storage contributed $6.04 billion, and services and other contributed $8.32 billion."
    sources := [{ document := "Tesla_2023_Annual_Report.pdf", pageNumber := 45,
                  chunkId := 12, relevance := "high" }]
    contextUsed := none, suggestion := none, error := false }

/-- The hard-coded demo response for questions mentioning "revenue"
(rag_engine.py lines 296-301). -/
def revenueResponse : QueryResult :=
  { answer := "According to the financial documents in our knowledge base, total revenues for 2023 were $96.77 billion. This represents strong growth across all business segments, with automotive sales being the primary revenue driver."
    sources := [{ document := "Tesla_2023_Annual_Report.pdf", pageNumber := 45,
                  chunkId := 12, relevance := "high" }]
    contextUsed := none, suggestion := none, error := false }

/-- The hard-coded demo response for questions mentioning "reset"
(rag_engine.py lines 302-307). -/
def resetResponse : QueryResult :=
  { answer := "To perform a console reset according to the technical documentation: 1) Ensure the vehicle is in Park, 2) Hold down both scroll wheels on the steering wheel simultaneously for 10-15 seconds, 3) Wait for the main screen to go black, 4) The system will automatically reboot and display the Tesla logo. This process typically takes 30-60 seconds to complete."
    sources := [{ document := "Tesla_Model_X_Manual.pdf", pageNumber := 23,
                  chunkId := 7, relevance := "high" }]
    contextUsed := none, suggestion := none, error := false }

/-- The hard-coded demo response for questions mentioning "console"
(rag_engine.py lines 308-313). -/
def consoleResponse : QueryResult :=
  { answer := "The main console reset procedure involves holding both steering wheel scroll wheels for 10-15 seconds until the screen goes black, then waiting for the automatic reboot process to complete."
    sources := [{ document := "Tesla_Model_X_Manual.pdf", pageNumber := 23,
                  chunkId := 7, relevance := "high" }]
    contextUsed := none, suggestion := none, error := false }

/-- The `demo_responses` dictionary of `_get_demo_response`, in Python
insertion (= iteration) order. -/
def demoResponses : List (String × QueryResult) :=
  [("tesla", teslaResponse), ("revenue", revenueResponse),
   ("reset", resetResponse), ("console", consoleResponse)]

/-- The default response of `_get_demo_response` when no keyword matches
(rag_engine.py lines 322-326). -/
def defaultDemoResponse : QueryResult :=
  { answer := "I don\x27t have enough information in the current knowledge base to provide a specific answer to your question. To get better results, please try uploading relevant documents or rephrasing your question with more specific terms."
    sources := []
    contextUsed := none
    suggestion := some "Try queries about Tesla financials, technical procedures, or vehicle operations."
    error := false }

/-- `needle` occurs as a contiguous sublist at the head of the second list. -/
def charsStartWith : List Char → List Char → Bool
  | [], _ => true
  | _ :: _, [] => false
  | a :: as, b :: bs => a == b && charsStartWith as bs

/-- `needle` occurs as a contiguous sublist somewhere in the second list. -/
def charsContain (needle : List Char) : List Char → Bool
  | [] => needle.isEmpty
  | l@(_ :: rest) => charsStartWith needle l || charsContain needle rest

/-- Python's substring test `needle in hay`. -/
def strContains (hay needle : String) : Bool :=
  charsContain needle.toList hay.toList

/-- `RAGEngine._get_demo_response` (rag_engine.py lines 287-326): return the
first canned response whose keyword occurs in the lower-cased query, else the
default response. -/
def getDemoResponse (q : String) : QueryResult :=
  match demoResponses.find? (fun p => strContains (lowerStr q) p.1) with
  | some p => p.2
  | none => defaultDemoResponse

/-- `RAGEngine._generate_simple_answer` (rag_engine.py lines 271-285):
keyword-based answer used in demo mode when no language model is
configured. -/
def generateSimpleAnswer (context q : String) : String :=
  let contextSentences := context.splitOn ". "
  let queryWords := pyWords (lowerStr q)
  let relevantSentences :=
    contextSentences.filter (fun s => queryWords.any (fun w => strContains (lowerStr s) w))
  if relevantSentences ≠ [] then
    String.intercalate ". " (relevantSentences.take 2) ++ "."
  else
    "Based on the available documents, I couldn\x27t find a specific answer to your question."

/-- The prompt template of rag_engine.py lines 63-77, filled with a context
and a question as `self.prompt_template.format(...)` does. -/
def promptTemplate (context q : String) : String :=
  "You are an intelligent assistant that answers questions based on provided documents. \n            Use the following context to answer the question accurately and professionally.\n            \n            If the answer is not in the provided context, state that clearly.\n            Always cite your sources when possible.\n            \n            Context:\n            " ++ context ++ "\n            \n            Question: " ++ q ++ "\n            \n            Answer:"

/-- One call to the external language model: consume the next outcome from
the queue of outcomes the external service would produce.  The prompt is
what the code sends; the outcome is external nondeterminism. -/
def callLLM (_prompt : String) (outcomes : List (Except String String)) :
    Except String String × List (Except String String) :=
  match outcomes with
  | [] => (Except.error "LLM unavailable", [])
  | o :: rest => (o, rest)

/-- `RAGEngine._demo_query` (rag_engine.py lines 185-232).  Returns the
result (or the uncaught exception, as `Except.error`) together with the
unconsumed language-model outcomes.  A question with no words raises
`ZeroDivisionError` on the first loop iteration, hence only when the
knowledge base is non-empty. -/
def demoQueryE (hasLLM : Bool) (outcomes : List (Except String String))
    (kb : List Chunk) (q : String) :
    Except String QueryResult × List (Except String String) :=
  if kb ≠ [] ∧ wordSet q = ∅ then
    (Except.error "division by zero", outcomes)
  else
    let relevant := sortDesc (keptChunks kb q)
    if relevant = [] then
      (Except.ok (getDemoResponse q), outcomes)
    else
      let contextChunks := demoContext kb q
      let context := String.intercalate "\n\n" (contextChunks.map Chunk.text)
      let callRes :=
        if hasLLM then callLLM (promptTemplate context q) outcomes
        else (Except.ok (generateSimpleAnswer context q), outcomes)
      match callRes with
      | (Except.error e, rem) => (Except.error e, rem)
      | (Except.ok answer, rem) =>
          (Except.ok
            { answer := answer.trim
              sources := contextChunks.map (fun c =>
                { document := c.source, pageNumber := c.pageNumber,
                  chunkId := c.chunkId, relevance := "high" })
              contextUsed := some contextChunks.length
              suggestion := none
              error := false }, rem)

/-- `RAGEngine.query` (rag_engine.py lines 169-183) in demo mode: run
`_demo_query` and convert any exception into the soft-fail response. -/
def queryEngine (st : EngineState) (outcomes : List (Except String String))
    (q : String) : QueryResult × List (Except String String) :=
  match demoQueryE st.hasGeminiKey outcomes st.demoDocuments q with
  | (Except.ok r, rem) => (r, rem)
  | (Except.error e, rem) =>
      ({ answer := "I encountered an error while processing your query: " ++ e
         sources := [], contextUsed := none, suggestion := none, error := true }, rem)

/-- The metadata loop of `add_document` (rag_engine.py lines 135-142):
attach `source`, ascending `chunk_id`, the page number inherited from the
splitter piece (`metadata.get("page", 1)`), and `total_chunks` to every
piece the splitter produced. -/
def attachMetadata (fname : String) (pieces : List SplitPiece) : List Chunk :=
  pieces.enum.map (fun pr =>
    { text := pr.2.text, source := fname, chunkId := pr.1,
      pageNumber := pr.2.page.getD 1, totalChunks := pieces.length })

/-- Python dict assignment `m[k] = v` on an association list: replace the
value at an existing key in place, otherwise append the new binding. -/
def upsert (m : List (String × DocRecord)) (k : String) (v : DocRecord) :
    List (String × DocRecord) :=
  if m.any (fun pr => pr.1 = k) then
    m.map (fun pr => if pr.1 = k then (k, v) else pr)
  else
    m ++ [(k, v)]

/-- Python dict lookup `m.get(k)`. -/
def lookupDoc (m : List (String × DocRecord)) (k : String) : Option DocRecord :=
  (m.find? (fun pr => pr.1 = k)).map Prod.snd

/-- `RAGEngine.add_document` (rag_engine.py lines 115-167) in demo mode.
`loaded` is the outcome of the external `PyPDFLoader` call; `split` is the
external `RecursiveCharacterTextSplitter.split_documents`, a pure function
of the loaded pages.  Any exception is re-raised wrapped in
`"Error processing document {filename}: ..."`; the state is only mutated
after all failure points have passed. -/
def addDocument (split : List Page → List SplitPiece) (st : EngineState)
    (fname : String) (loaded : Except String (List Page)) :
    Except String Unit × EngineState :=
  match loaded with
  | Except.error e =>
      (Except.error ("Error processing document " ++ fname ++ ": " ++ e), st)
  | Except.ok pages =>
      if pages = [] then
        (Except.error ("Error processing document " ++ fname ++
          ": No content found in the PDF"), st)
      else
        let chunks := attachMetadata fname (split pages)
        (Except.ok (),
          { st with
              demoDocuments := st.demoDocuments ++ chunks
              documents := upsert st.documents fname
                { chunks := chunks.length, pages := pages.length,
                  status := "processed" } })

/-- The dictionary returned by `RAGEngine.get_status`
(rag_engine.py lines 328-337). -/
structure StatusResult where
  mode : String
  documentsCount : Nat
  demoChunks : Nat
  geminiConfigured : Bool
  pineconeConfigured : Bool
  aiProvider : String
deriving DecidableEq

/-- `RAGEngine.get_status` (rag_engine.py lines 328-337), a pure read of the
engine state. -/
def getStatus (st : EngineState) : StatusResult :=
  { mode := if st.demoMode then "demo" else "production"
    documentsCount := st.documents.length
    demoChunks := if st.demoMode then st.demoDocuments.length else 0
    geminiConfigured := st.hasGeminiKey
    pineconeConfigured := st.hasPineconeKey && !st.demoMode
    aiProvider := "Google Gemini" }

/-- `get_status` as a state transition: the method body contains no
assignment to `self`, so the state after the call is the state before it. -/
def getStatusStep (st : EngineState) : StatusResult × EngineState :=
  (getStatus st, st)

/-! ## Properties of the stable descending sort -/

/-- The ordering of the sort at rag_engine.py line 200: `a` before `b` is
consistent with descending relevance. -/
def keyGE (a b : Chunk × ℚ) : Prop := b.2 ≤ a.2

theorem insertDesc_perm (p : Chunk × ℚ) (l : List (Chunk × ℚ)) :
    (insertDesc p l).Perm (p :: l) := by
  induction l with
  | nil => exact List.Perm.refl _
  | cons b rest ih =>
      by_cases h : p.2 < b.2
      · simp only [insertDesc, if_pos h]
        exact (ih.cons b).trans (List.Perm.swap p b rest)
      · simp only [insertDesc, if_neg h]
        exact List.Perm.refl _

theorem sortDesc_perm (l : List (Chunk × ℚ)) : (sortDesc l).Perm l := by
  induction l with
  | nil => exact List.Perm.refl _
  | cons p rest ih =>
      exact (insertDesc_perm p (sortDesc rest)).trans (ih.cons p)

theorem insertDesc_pairwise (p : Chunk × ℚ) (l : List (Chunk × ℚ))
    (hl : l.Pairwise keyGE) : (insertDesc p l).Pairwise keyGE := by
  induction l with
  | nil => simp [insertDesc, keyGE]
  | cons b rest ih =>
      rcases List.pairwise_cons.mp hl with ⟨hb, hrest⟩
      by_cases h : p.2 < b.2
      · simp only [insertDesc, if_pos h]
        refine List.pairwise_cons.mpr ⟨?_, ih hrest⟩
        intro x hx
        rcases List.mem_cons.mp ((insertDesc_perm p rest).mem_iff.mp hx) with hx | hx
        · subst hx; exact le_of_lt h
        · exact hb x hx
      · simp only [insertDesc, if_neg h]
        refine List.pairwise_cons.mpr ⟨?_, hl⟩
        intro x hx
        rcases List.mem_cons.mp hx with hx | hx
        · subst hx; exact le_of_not_lt h
        · exact le_trans (hb x hx) (le_of_not_lt h)

theorem sortDesc_pairwise (l : List (Chunk × ℚ)) : (sortDesc l).Pairwise keyGE := by
  induction l with
  | nil => simp [sortDesc]
  | cons p rest ih => exact insertDesc_pairwise p (sortDesc rest) ih

/-- Stability of the insertion step: among the elements of any fixed
relevance `r`, the inserted element (the one from the earlier position of
the original list) comes first when its relevance is `r`, and the relative
order of the others is untouched. -/
theorem insertDesc_filter (p : Chunk × ℚ) (r : ℚ) (l : List (Chunk × ℚ)) :
    (insertDesc p l).filter (fun x => x.2 == r) =
      if p.2 = r then p :: l.filter (fun x => x.2 == r)
      else l.filter (fun x => x.2 == r) := by
  induction l with
  | nil =>
      by_cases h : p.2 = r <;> simp [insertDesc, List.filter_cons, beq_iff_eq, h]
  | cons b rest ih =>
      by_cases h : p.2 < b.2
      · simp only [insertDesc, if_pos h]
        by_cases hb : b.2 = r
        · have hp : ¬ p.2 = r := by
            intro hp; rw [hp, hb] at h; exact lt_irrefl r h
          simp [List.filter_cons, hb, hp, ih]
        · by_cases hp : p.2 = r <;> simp [List.filter_cons, hb, hp, ih]
      · simp only [insertDesc, if_neg h]
        by_cases hp : p.2 = r <;> simp [List.filter_cons, hp]

/-- Stability of the sort: for every relevance value, the elements carrying
that value appear in the sorted list in exactly their original order. -/
theorem sortDesc_filter (r : ℚ) (l : List (Chunk × ℚ)) :
    (sortDesc l).filter (fun x => x.2 == r) = l.filter (fun x => x.2 == r) := by
  induction l with
  | nil => rfl
  | cons p rest ih =>
      show (insertDesc p (sortDesc rest)).filter (fun x => x.2 == r) = _
      rw [insertDesc_filter]
      by_cases hp : p.2 = r <;> simp [List.filter_cons, hp, ih]

/-- The sources list of every canned or default demo response has at most
one entry, and no canned response reports a context count. -/
theorem getDemoResponse_small (q : String) :
    (getDemoResponse q).sources.length ≤ 1 ∧
    (getDemoResponse q).contextUsed = none := by
  rw [getDemoResponse]
  rcases hfind : demoResponses.find? (fun p => strContains (lowerStr q) p.1)
    with _ | pr
  · rw [hfind]
    exact ⟨by simp [defaultDemoResponse], rfl⟩
  · rw [hfind]
    have hmem := List.mem_of_find?_eq_some hfind
    simp only [demoResponses, List.mem_cons, List.not_mem_nil, or_false] at hmem
    rcases hmem with h | h | h | h <;> subst h <;>
      exact ⟨by simp [teslaResponse, revenueResponse, resetResponse,
        consoleResponse], rfl⟩

/-- Every successful `_demo_query` result reports at most 3 context chunks
and cites at most 3 sources. -/
theorem demoQueryE_result_bounds (hasLLM : Bool)
    (outs : List (Except String String)) (kb : List Chunk) (q : String)
    (r : QueryResult) (h : (demoQueryE hasLLM outs kb q).1 = Except.ok r) :
    r.sources.length ≤ 3 ∧ r.contextUsed.getD 0 ≤ 3 := by
  have hlen : (demoContext kb q).length ≤ 3 := by
    simp only [demoContext, List.length_map, List.length_take]
    exact min_le_left _ _
  simp only [demoQueryE] at h
  split at h
  · simp at h
  · split at h
    · have hr : r = getDemoResponse q := by
        simpa using h.symm
      subst hr
      have hs := getDemoResponse_small q
      exact ⟨le_trans hs.1 (by norm_num), by rw [hs.2]; norm_num⟩
    · split at h
      · simp at h
      · have hr := (Except.ok.injEq _ _).mp h.symm
        subst hr
        refine ⟨by simpa using hlen, by simpa using hlen⟩

/-- C1: the context set selected by the in-memory query is the relevance-
filtered chunk list (`relevance > 0.1`), stably sorted by descending
relevance, truncated to the first 3; and the query never reports or cites
more than 3 context chunks, on any path and any engine state. -/
theorem demo_context_spec (kb : List Chunk) (q : String) :
    (demoContext kb q).length ≤ 3 ∧
    demoContext kb q = ((sortDesc (keptChunks kb q)).take 3).map Prod.fst ∧
    (sortDesc (keptChunks kb q)).Perm (keptChunks kb q) ∧
    (sortDesc (keptChunks kb q)).Pairwise keyGE ∧
    (∀ r : ℚ, (sortDesc (keptChunks kb q)).filter (fun x => x.2 == r) =
      (keptChunks kb q).filter (fun x => x.2 == r)) ∧
    (∀ (st : EngineState) (outs : List (Except String String)),
      ((queryEngine st outs q).1.contextUsed).getD 0 ≤ 3 ∧
      (queryEngine st outs q).1.sources.length ≤ 3) := by
  refine ⟨?_, rfl, sortDesc_perm _, sortDesc_pairwise _, fun r => sortDesc_filter r _,
    fun st outs => ?_⟩
  · simp only [demoContext, List.length_map, List.length_take]
    exact min_le_left _ _
  · rw [queryEngine]
    rcases hd : demoQueryE st.hasGeminiKey outs st.demoDocuments q with ⟨res, rem⟩
    cases res with
    | error e => simp
    | ok r =>
        have hb := demoQueryE_result_bounds st.hasGeminiKey outs st.demoDocuments q r
          (by rw [hd])
        exact ⟨hb.2, hb.1⟩

/-! ## Concrete fixtures for witnesses and counterexamples -/

/-- A concrete chunk, as produced by ingesting a one-chunk document. -/
def sampleChunk : Chunk :=
  { text := "Tesla revenue grew fast", source := "docs.pdf", chunkId := 0,
    pageNumber := 1, totalChunks := 1 }

/-- A concrete page as the external loader would produce it. -/
def samplePage : Page := { text := "Tesla revenue grew fast", page := none }

/-- A concrete stand-in for the external splitter: one piece per page. -/
def splitPerPage : List Page → List SplitPiece :=
  fun ps => ps.map (fun p => { text := p.text, page := p.page })

/-- A freshly started engine in demo mode with nothing ingested. -/
def emptyEngine : EngineState :=
  { demoMode := true, hasGeminiKey := false, hasPineconeKey := false,
    demoDocuments := [], documents := [] }

/-- A demo-mode engine with a language model configured and one chunk. -/
def llmEngine : EngineState :=
  { demoMode := true, hasGeminiKey := true, hasPineconeKey := false,
    demoDocuments := [sampleChunk], documents := [] }

/-- A demo-mode engine that has already successfully ingested `docs.pdf`. -/
def ingestedEngine : EngineState :=
  { demoMode := true, hasGeminiKey := false, hasPineconeKey := false,
    demoDocuments := [sampleChunk],
    documents := [("docs.pdf", { chunks := 1, pages := 1, status := "processed" })] }

/-! ## C2: the relevance score -/

/-- C2 counterexample: against a non-empty knowledge base, a question that
tokenizes to zero words does not get relevance score 0 — the scan fails with
a division error (Python `ZeroDivisionError`), so the score is not a defined
value for any chunk. -/
theorem relevance_division_failure_cx :
    (demoQueryE false [] [sampleChunk] " ").1 = Except.error "division by zero" := rfl

/-- C2 (amended): for every question with at least one word the relevance
score is defined and lies in [0, 1]; a question with zero words raises a
division error in `_demo_query` whenever the knowledge base is non-empty
(the score is never computed as 0 in that case). -/
theorem relevance_score_bounds :
    (∀ (qw : Finset String) (c : Chunk), qw ≠ ∅ →
      0 ≤ relevanceScore qw c ∧ relevanceScore qw c ≤ 1) ∧
    (∀ (hasLLM : Bool) (outs : List (Except String String))
        (kb : List Chunk) (q : String), kb ≠ [] → wordSet q = ∅ →
      (demoQueryE hasLLM outs kb q).1 = Except.error "division by zero") := by
  constructor
  · intro qw c h
    have hpos : (0 : ℚ) < (qw.card : ℚ) := by
      exact_mod_cast Finset.card_pos.mpr (Finset.nonempty_iff_ne_empty.mpr h)
    constructor
    · exact div_nonneg (by positivity) (le_of_lt hpos)
    · rw [relevanceScore, div_le_one hpos]
      exact_mod_cast Finset.card_le_card Finset.inter_subset_left
  · intro hasLLM outs kb q hkb hq
    simp only [demoQueryE, if_pos (⟨hkb, hq⟩ : kb ≠ [] ∧ wordSet q = ∅)]

/-- Witness for the amended C2 at a concrete question and chunk. -/
theorem relevance_score_bounds_witness :
    0 ≤ relevanceScore (wordSet "tesla") sampleChunk ∧
    relevanceScore (wordSet "tesla") sampleChunk ≤ 1 :=
  relevance_score_bounds.1 (wordSet "tesla") sampleChunk (by decide)

/-! ## The no-relevant-context path -/

/-- A question with no words scores every chunk at 0 (in the exact model),
so nothing clears the threshold. -/
theorem keptChunks_empty_of_no_words (kb : List Chunk) (q : String)
    (h : wordSet q = ∅) : keptChunks kb q = [] := by
  rw [keptChunks, List.filter_eq_nil_iff]
  intro p hp
  rcases List.mem_map.mp hp with ⟨c, _, hc⟩
  subst hc
  simp only [relevanceScore, h, Finset.empty_inter, Finset.card_empty,
    Nat.cast_zero, zero_div, decide_eq_true_eq, not_lt]
  norm_num

/-- When no chunk clears the 0.1 relevance threshold, `query` answers from
`_get_demo_response` and the language-model outcome queue is untouched
(no external call is made). -/
theorem queryEngine_no_context (st : EngineState)
    (outs : List (Except String String)) (q : String)
    (hguard : wordSet q = ∅ → st.demoDocuments = [])
    (hno : ∀ c ∈ st.demoDocuments, relevanceScore (wordSet q) c ≤ 1/10) :
    queryEngine st outs q = (getDemoResponse q, outs) := by
  have hkept : keptChunks st.demoDocuments q = [] := by
    rw [keptChunks, List.filter_eq_nil_iff]
    intro p hp
    rcases List.mem_map.mp hp with ⟨c, hc, hcp⟩
    subst hcp
    simpa using not_lt.mpr (hno c hc)
  have hg : ¬ (st.demoDocuments ≠ [] ∧ wordSet q = ∅) := by
    rintro ⟨hne, hq⟩; exact hne (hguard hq)
  rw [queryEngine, demoQueryE]
  simp only [if_neg hg, hkept]
  rfl

/-- Once `_demo_query` has no relevant chunks, the keywordless default
response is returned exactly when none of the four canned keywords occurs in
the lower-cased question. -/
theorem getDemoResponse_default (q : String)
    (h : demoResponses.all (fun p => !strContains (lowerStr q) p.1) = true) :
    getDemoResponse q = defaultDemoResponse := by
  rw [getDemoResponse, List.find?_eq_none.mpr]
  intro p hp
  have := (List.all_eq_true.mp h) p hp
  simpa using this

/-! ## C3: fallback when nothing clears the threshold -/

/-- C3 counterexample: a query against an empty knowledge base whose
question contains the substring "tesla" returns the hard-coded canned
response, whose source list is NOT empty. -/
theorem fallback_sources_nonempty_cx :
    (queryEngine emptyEngine [] "tesla").1.sources ≠ [] ∧
    (queryEngine emptyEngine [] "tesla").1 = teslaResponse := by
  constructor
  · intro h
    have hs : (queryEngine emptyEngine [] "tesla").1.sources =
        [{ document := "Tesla_2023_Annual_Report.pdf", pageNumber := 45,
           chunkId := 12, relevance := "high" }] := rfl
    rw [hs] at h
    exact List.cons_ne_nil _ _ h
  · rfl

/-- C3 (amended): when no chunk clears the 0.1 threshold (in particular
against an empty knowledge base) the query answers from the canned-response
table without calling the external language model; the answer is the static
fallback with empty sources and a suggestion string exactly when the
lower-cased question contains none of the four canned keywords (otherwise a
hard-coded keyword response with non-empty sources is returned). -/
theorem no_context_fallback (st : EngineState)
    (outs : List (Except String String)) (q : String)
    (hguard : wordSet q = ∅ → st.demoDocuments = [])
    (hno : ∀ c ∈ st.demoDocuments, relevanceScore (wordSet q) c ≤ 1/10) :
    (queryEngine st outs q).1 = getDemoResponse q ∧
    (queryEngine st outs q).2 = outs ∧
    (demoResponses.all (fun p => !strContains (lowerStr q) p.1) = true →
      (queryEngine st outs q).1.sources = [] ∧
      (queryEngine st outs q).1.suggestion =
        some "Try queries about Tesla financials, technical procedures, or vehicle operations.") := by
  have h := queryEngine_no_context st outs q hguard hno
  refine ⟨by rw [h], by rw [h], ?_⟩
  intro hall
  rw [h, getDemoResponse_default q hall]
  exact ⟨rfl, rfl⟩

/-- Witness for the amended C3: empty knowledge base, keywordless question. -/
theorem no_context_fallback_witness :
    (queryEngine emptyEngine [] "what is in my documents").1.sources = [] ∧
    (queryEngine emptyEngine [] "what is in my documents").1.suggestion =
      some "Try queries about Tesla financials, technical procedures, or vehicle operations." :=
  (no_context_fallback emptyEngine [] "what is in my documents"
    (fun _ => rfl) (by simp [emptyEngine])).2.2 (by decide)

/-! ## C9: the canned keyword responses -/

/-- C9: when no chunk clears the threshold, a question whose lower-cased
text contains one of "tesla", "revenue", "reset", "console" receives a
hard-coded canned response with a NON-empty hard-coded source list (and no
suggestion); only questions containing none of the keywords receive the
generic fallback with empty sources and a suggestion string; the canned
table is consulted independently of the knowledge-base contents. -/
theorem demo_canned_keyword_responses :
    (∀ q : String,
      demoResponses.any (fun p => strContains (lowerStr q) p.1) = true →
      (getDemoResponse q).sources ≠ [] ∧ (getDemoResponse q).suggestion = none ∧
      getDemoResponse q ∈ demoResponses.map Prod.snd) ∧
    (∀ q : String,
      demoResponses.all (fun p => !strContains (lowerStr q) p.1) = true →
      getDemoResponse q = defaultDemoResponse ∧
      (getDemoResponse q).sources = [] ∧
      (getDemoResponse q).suggestion =
        some "Try queries about Tesla financials, technical procedures, or vehicle operations.") ∧
    (∀ (st : EngineState) (outs : List (Except String String)) (q : String),
      (wordSet q = ∅ → st.demoDocuments = []) →
      (∀ c ∈ st.demoDocuments, relevanceScore (wordSet q) c ≤ 1/10) →
      queryEngine st outs q = (getDemoResponse q, outs)) := by
  refine ⟨?_, ?_, fun st outs q h1 h2 => queryEngine_no_context st outs q h1 h2⟩
  · intro q h
    have hsome : (demoResponses.find? (fun p => strContains (lowerStr q) p.1)).isSome := by
      rw [List.find?_isSome]
      exact List.any_eq_true.mp h
    rcases Option.isSome_iff_exists.mp hsome with ⟨pr, heq⟩
    have hmem := List.mem_of_find?_eq_some heq
    rw [getDemoResponse, heq]
    have hmap : pr.2 ∈ demoResponses.map Prod.snd := List.mem_map_of_mem Prod.snd hmem
    simp only [demoResponses, List.mem_cons, List.not_mem_nil, or_false] at hmem
    rcases hmem with h1 | h1 | h1 | h1 <;>
      subst h1 <;>
      exact ⟨List.cons_ne_nil _ _, rfl, hmap⟩
  · intro q h
    rw [getDemoResponse_default q h]
    exact ⟨rfl, rfl, rfl⟩

/-- Witness for C9: a "reset"/"console" question gets a canned non-empty
source list; the canned branch is exercised at a concrete input. -/
theorem demo_canned_keyword_responses_witness :
    (getDemoResponse "how do I reset the console").sources ≠ [] ∧
    (getDemoResponse "how do I reset the console").suggestion = none ∧
    getDemoResponse "how do I reset the console" ∈ demoResponses.map Prod.snd :=
  demo_canned_keyword_responses.1 "how do I reset the console" (by decide)

/-! ## C10: status is a pure read -/

/-- C10: `get_status` does not mutate the engine state, and calling it twice
without an intervening ingestion returns identical results. -/
theorem status_idempotent (st : EngineState) :
    (getStatusStep st).2 = st ∧
    (getStatusStep ((getStatusStep st).2)).1 = (getStatusStep st).1 :=
  ⟨rfl, rfl⟩

/-! ## C7: language-model failure is soft-failed -/

/-- C7: when the language model is configured, some chunk clears the
threshold, and the external call fails, `query` catches the failure and
returns a structured result whose answer states an error occurred, with an
empty source list and the error flag set; exactly one outcome is consumed
from the external service, so the call is not retried. -/
theorem llm_failure_soft (st : EngineState) (q e : String)
    (rest : List (Except String String))
    (hllm : st.hasGeminiKey = true)
    (hctx : keptChunks st.demoDocuments q ≠ []) :
    queryEngine st (Except.error e :: rest) q =
      ({ answer := "I encountered an error while processing your query: " ++ e,
         sources := [], contextUsed := none, suggestion := none, error := true },
       rest) := by
  have hq : ¬ wordSet q = ∅ := fun h => hctx (keptChunks_empty_of_no_words _ _ h)
  have hg : ¬ (st.demoDocuments ≠ [] ∧ wordSet q = ∅) := fun h => hq h.2
  have hsort : ¬ sortDesc (keptChunks st.demoDocuments q) = [] := by
    intro h
    apply hctx
    have hlen := (sortDesc_perm (keptChunks st.demoDocuments q)).length_eq
    rw [h] at hlen
    exact List.length_eq_zero.mp hlen.symm
  rw [queryEngine, demoQueryE]
  simp only [if_neg hg, if_neg hsort, hllm, if_pos, callLLM]

/-- Witness for C7 at a concrete engine, question and failing outcome. -/
theorem llm_failure_soft_witness :
    queryEngine llmEngine [Except.error "boom"] "tesla revenue growth" =
      ({ answer := "I encountered an error while processing your query: boom",
         sources := [], contextUsed := none, suggestion := none, error := true },
       []) := by
  have hrel : relevanceScore (wordSet "tesla revenue growth") sampleChunk = 2/3 := by
    rw [relevanceScore,
      show (wordSet "tesla revenue growth" ∩ wordSet sampleChunk.text).card = 2 from by decide,
      show (wordSet "tesla revenue growth").card = 3 from by decide]
    norm_num
  apply llm_failure_soft llmEngine "tesla revenue growth" "boom" [] rfl
  show keptChunks [sampleChunk] "tesla revenue growth" ≠ []
  rw [keptChunks, scoredChunks]
  simp only [List.map, List.filter, hrel]
  norm_num

/-! ## Ingestion -/

/-- After `m[k] = v`, looking up `k` yields `v`. -/
theorem lookupDoc_upsert (m : List (String × DocRecord)) (k : String)
    (v : DocRecord) : lookupDoc (upsert m k v) k = some v := by
  rw [upsert]
  by_cases h : m.any (fun pr => pr.1 = k)
  · rw [if_pos h, lookupDoc]
    induction m with
    | nil => simp at h
    | cons pr rest ih =>
        by_cases hk : pr.1 = k
        · rw [List.map_cons, if_pos hk, List.find?_cons_of_pos _ (by simp)]
          rfl
        · rw [List.map_cons, if_neg hk, List.find?_cons_of_neg _ (by simp [hk])]
          apply ih
          simpa [List.any_cons, hk] using h
  · rw [if_neg h, lookupDoc, List.find?_append]
    have hnone : m.find? (fun pr => decide (pr.1 = k)) = none := by
      rw [List.find?_eq_none]
      intro x hx hxk
      exact h (List.any_eq_true.mpr ⟨x, hx, hxk⟩)
    simp [hnone]

/-! ## C4: failed ingestion and the document records -/

/-- C4 counterexample: an ingestion whose loader yields zero pages fails
with a propagated error, but NO DocumentRecord is upserted for the filename
— in particular none with status `failed`; the documents map is unchanged. -/
theorem failed_ingestion_no_record_cx :
    (addDocument splitPerPage emptyEngine "a.pdf" (Except.ok [])).1 =
      Except.error "Error processing document a.pdf: No content found in the PDF" ∧
    lookupDoc (addDocument splitPerPage emptyEngine "a.pdf"
      (Except.ok [])).2.documents "a.pdf" = none :=
  ⟨rfl, rfl⟩

/-- C4 (amended): for every ingestion that fails (loader error or zero
extractable pages), the error is propagated to the caller and the document
map is left unchanged — no record (in particular none with status `failed`)
is written for the filename. -/
theorem failed_ingestion_propagates (split : List Page → List SplitPiece)
    (st : EngineState) (fname : String) (loaded : Except String (List Page))
    (hfail : (∃ e, loaded = Except.error e) ∨ loaded = Except.ok []) :
    (∃ msg, (addDocument split st fname loaded).1 = Except.error msg) ∧
    (addDocument split st fname loaded).2.documents = st.documents ∧
    lookupDoc (addDocument split st fname loaded).2.documents fname =
      lookupDoc st.documents fname := by
  rcases hfail with ⟨e, he⟩ | he <;> subst he
  · exact ⟨⟨"Error processing document " ++ fname ++ ": " ++ e, rfl⟩, rfl, rfl⟩
  · exact ⟨⟨"Error processing document " ++ fname ++
      ": No content found in the PDF", rfl⟩, rfl, rfl⟩

/-- Witness for the amended C4 at a concrete loader failure. -/
theorem failed_ingestion_propagates_witness :
    (∃ msg, (addDocument splitPerPage emptyEngine "b.pdf"
      (Except.error "file is encrypted")).1 = Except.error msg) ∧
    (addDocument splitPerPage emptyEngine "b.pdf"
      (Except.error "file is encrypted")).2.documents = emptyEngine.documents ∧
    lookupDoc (addDocument splitPerPage emptyEngine "b.pdf"
      (Except.error "file is encrypted")).2.documents "b.pdf" =
      lookupDoc emptyEngine.documents "b.pdf" :=
  failed_ingestion_propagates splitPerPage emptyEngine "b.pdf"
    (Except.error "file is encrypted") (Or.inl ⟨"file is encrypted", rfl⟩)

/-! ## C5: ingestion is all-or-nothing per document -/

/-- C5: either the ingestion succeeds and all chunks produced from the
document are appended to the knowledge base's chunk sequence, or it fails
and the engine state — in particular the chunk sequence — is exactly as it
was before the call. -/
theorem ingestion_all_or_nothing (split : List Page → List SplitPiece)
    (st : EngineState) (fname : String) (loaded : Except String (List Page)) :
    (∀ msg, (addDocument split st fname loaded).1 = Except.error msg →
      (addDocument split st fname loaded).2 = st) ∧
    ((addDocument split st fname loaded).1 = Except.ok () →
      ∃ pages, loaded = Except.ok pages ∧
        (addDocument split st fname loaded).2.demoDocuments =
          st.demoDocuments ++ attachMetadata fname (split pages)) := by
  match loaded with
  | Except.error e => exact ⟨fun _ _ => rfl, fun h => by simp [addDocument] at h⟩
  | Except.ok pages =>
      by_cases hp : pages = []
      · subst hp
        exact ⟨fun _ _ => rfl, fun h => by simp [addDocument] at h⟩
      · refine ⟨fun msg hmsg => ?_, fun _ => ⟨pages, rfl, ?_⟩⟩
        · rw [addDocument] at hmsg
          simp [if_neg hp] at hmsg
        · rw [addDocument]
          simp [if_neg hp]

/-- Witness for C5: a concrete successful ingestion appends exactly the
produced chunks. -/
theorem ingestion_all_or_nothing_witness :
    ∃ pages, (Except.ok [samplePage] : Except String (List Page)) = Except.ok pages ∧
      (addDocument splitPerPage emptyEngine "a.pdf"
        (Except.ok [samplePage])).2.demoDocuments =
        emptyEngine.demoDocuments ++ attachMetadata "a.pdf" (splitPerPage pages) :=
  (ingestion_all_or_nothing splitPerPage emptyEngine "a.pdf"
    (Except.ok [samplePage])).2 rfl

/-! ## C6: chunk metadata on successful ingestion -/

/-- C6: a successful ingestion appends exactly the chunks built by the
metadata loop, whose `chunkIndex` is the ascending zero-based position,
whose `totalChunks` is the final count of chunks produced from the document,
whose `source` is the filename, and whose `pageNumber` defaults to 1 when
the splitter piece carries no page metadata. -/
theorem chunk_metadata_spec (split : List Page → List SplitPiece)
    (st : EngineState) (fname : String) (pages : List Page)
    (hpages : pages ≠ []) :
    (addDocument split st fname (Except.ok pages)).2.demoDocuments.drop
        st.demoDocuments.length = attachMetadata fname (split pages) ∧
    (attachMetadata fname (split pages)).length = (split pages).length ∧
    (∀ i (hi : i < (attachMetadata fname (split pages)).length),
      ((attachMetadata fname (split pages)).get ⟨i, hi⟩).chunkId = i ∧
      ((attachMetadata fname (split pages)).get ⟨i, hi⟩).totalChunks =
        (split pages).length ∧
      ((attachMetadata fname (split pages)).get ⟨i, hi⟩).source = fname ∧
      ∀ (hi2 : i < (split pages).length),
        ((split pages).get ⟨i, hi2⟩).page = none →
        ((attachMetadata fname (split pages)).get ⟨i, hi⟩).pageNumber = 1) := by
  refine ⟨?_, ?_, ?_⟩
  · rw [addDocument]
    simp [if_neg hpages, List.drop_left]
  · simp [attachMetadata, List.enum_length]
  · intro i hi
    have hi' : i < (split pages).length := by
      simpa [attachMetadata, List.enum_length] using hi
    have hget : (attachMetadata fname (split pages)).get ⟨i, hi⟩ =
        { text := ((split pages).get ⟨i, hi'⟩).text, source := fname,
          chunkId := i,
          pageNumber := ((split pages).get ⟨i, hi'⟩).page.getD 1,
          totalChunks := (split pages).length } := by
      simp [attachMetadata, List.get_eq_getElem, List.getElem_map,
        List.getElem_enum]
    rw [hget]
    refine ⟨rfl, rfl, rfl, fun hi2 hnone => ?_⟩
    simp [List.get_eq_getElem] at hnone
    simp [List.get_eq_getElem, hnone]

/-- Witness for C6 at a concrete one-page document with no page metadata. -/
theorem chunk_metadata_spec_witness :
    ((attachMetadata "a.pdf" (splitPerPage [samplePage])).get
      ⟨0, by decide⟩).chunkId = 0 ∧
    ((attachMetadata "a.pdf" (splitPerPage [samplePage])).get
      ⟨0, by decide⟩).totalChunks = (splitPerPage [samplePage]).length ∧
    ((attachMetadata "a.pdf" (splitPerPage [samplePage])).get
      ⟨0, by decide⟩).source = "a.pdf" :=
  by
    have h := (chunk_metadata_spec splitPerPage emptyEngine "a.pdf" [samplePage]
      (by decide)).2.2 0 (by decide)
    exact ⟨h.1, h.2.1, h.2.2.1⟩

/-! ## C8: re-ingesting the same filename -/

/-- C8: re-ingesting a document under an already-ingested filename, with at
least one produced chunk, succeeds, strictly increases the knowledge base's
total chunk count (no deduplication), and overwrites that filename's
DocumentRecord with the new chunk and page counts and status `processed`. -/
theorem reingest_appends (split : List Page → List SplitPiece)
    (st : EngineState) (fname : String) (pages : List Page)
    (oldrec : DocRecord)
    (_hprev : lookupDoc st.documents fname = some oldrec)
    (hpages : pages ≠ []) (hchunks : split pages ≠ []) :
    (addDocument split st fname (Except.ok pages)).1 = Except.ok () ∧
    st.demoDocuments.length <
      (addDocument split st fname (Except.ok pages)).2.demoDocuments.length ∧
    lookupDoc (addDocument split st fname (Except.ok pages)).2.documents fname =
      some { chunks := (attachMetadata fname (split pages)).length,
             pages := pages.length, status := "processed" } := by
  refine ⟨?_, ?_, ?_⟩
  · rw [addDocument]; simp [if_neg hpages]
  · rw [addDocument]
    simp only [if_neg hpages, List.length_append]
    have : 0 < (attachMetadata fname (split pages)).length := by
      rw [attachMetadata, List.length_map, List.enum_length]
      exact List.length_pos.mpr hchunks
    omega
  · rw [addDocument]
    simp only [if_neg hpages]
    exact lookupDoc_upsert st.documents fname _

/-- Witness for C8: re-ingesting `docs.pdf` into an engine that already
holds it appends a second copy of its chunk and overwrites the record. -/
theorem reingest_appends_witness :
    (addDocument splitPerPage ingestedEngine "docs.pdf"
      (Except.ok [samplePage])).1 = Except.ok () ∧
    ingestedEngine.demoDocuments.length <
      (addDocument splitPerPage ingestedEngine "docs.pdf"
        (Except.ok [samplePage])).2.demoDocuments.length ∧
    lookupDoc (addDocument splitPerPage ingestedEngine "docs.pdf"
      (Except.ok [samplePage])).2.documents "docs.pdf" =
      some { chunks := (attachMetadata "docs.pdf" (splitPerPage [samplePage])).length,
             pages := [samplePage].length, status := "processed" } :=
  reingest_appends splitPerPage ingestedEngine "docs.pdf" [samplePage]
    { chunks := 1, pages := 1, status := "processed" }
    (by decide) (by decide) (by decide)

end Cognidoc
